import Mathlib

/-!
# Verification of the YewChat session controller (`src/components/chat.rs`)

A shallow embedding of the chat client's protocol state machine:

* the wire envelope `WebSocketMessage` together with its serde-derived
  JSON codec (camelCase field renaming, `Option` fields accepting both
  `null` and absence, unknown fields ignored, duplicate fields rejected);
* the inner payloads `MessageData` and `TypingStatus` with their
  serde-derived decoders (no field renaming on `TypingStatus`);
* the `Chat` component state and its `update` handlers
  (`Msg::HandleMsg`, `Msg::SubmitMessage`) plus `send_typing_status`;
* the derived typing-indicator text and the `.gif` rendering
  classification from `view`.

Fallible Rust operations are modelled with `Option`; a `.unwrap()` on a
decode failure is modelled as `none` (a panic aborts the handler, so no
state is produced).  JSON texts are modelled by the inductive `Json`
(parsed value trees); the text layer itself is covered by the executable
`parseJsonStr` used for the inner (string-typed) payload decodes, exactly
where the source calls `serde_json::from_str` a second time.
-/

/-- JSON value trees.  Numbers are restricted to integers; the envelope
decoders reject numeric payloads regardless of their value. -/
inductive Json where
  | null : Json
  | bool : Bool → Json
  | str : String → Json
  | num : Int → Json
  | arr : List Json → Json
  | obj : List (String × Json) → Json

/-- First key of a JSON object, used to discriminate object layouts. -/
def Json.firstKey : Json → Option String
  | .obj ((k, _) :: _) => some k
  | _ => none

def hexDigitStr (n : Nat) : String :=
  if n = 0 then "0" else if n = 1 then "1" else if n = 2 then "2"
  else if n = 3 then "3" else if n = 4 then "4" else if n = 5 then "5"
  else if n = 6 then "6" else if n = 7 then "7" else if n = 8 then "8"
  else if n = 9 then "9" else if n = 10 then "a" else if n = 11 then "b"
  else if n = 12 then "c" else if n = 13 then "d" else if n = 14 then "e"
  else "f"

/-- serde_json string escaping: quote, backslash, the short control
escapes, and `\u00XX` for the remaining control characters. -/
def escapeJsonChar (c : Char) : String :=
  if c = '"' then "\\\""
  else if c = '\\' then "\\\\"
  else if c = '\x08' then "\\b"
  else if c = '\x09' then "\\t"
  else if c = '\x0a' then "\\n"
  else if c = '\x0c' then "\\f"
  else if c = '\x0d' then "\\r"
  else if c.toNat < 0x20 then "\\u00" ++ hexDigitStr (c.toNat / 16) ++ hexDigitStr (c.toNat % 16)
  else String.singleton c

def escapeJsonString (s : String) : String :=
  String.join (s.data.map escapeJsonChar)

mutual

/-- Compact JSON serialization, as produced by `serde_json::to_string`. -/
def Json.render : Json → String
  | .null => "null"
  | .bool true => "true"
  | .bool false => "false"
  | .str s => "\"" ++ escapeJsonString s ++ "\""
  | .num i => toString i
  | .arr xs => "[" ++ renderElems xs ++ "]"
  | .obj fs => "\x7b" ++ renderFields fs ++ "\x7d"

def renderElems : List Json → String
  | [] => ""
  | [x] => Json.render x
  | x :: y :: xs => Json.render x ++ "," ++ renderElems (y :: xs)

def renderFields : List (String × Json) → String
  | [] => ""
  | [(k, v)] => "\"" ++ escapeJsonString k ++ "\":" ++ Json.render v
  | (k, v) :: f :: fs =>
      "\"" ++ escapeJsonString k ++ "\":" ++ Json.render v ++ "," ++ renderFields (f :: fs)

end

def hexVal (c : Char) : Option Nat :=
  if '0' ≤ c ∧ c ≤ '9' then some (c.toNat - '0'.toNat)
  else if 'a' ≤ c ∧ c ≤ 'f' then some (c.toNat - 'a'.toNat + 10)
  else if 'A' ≤ c ∧ c ≤ 'F' then some (c.toNat - 'A'.toNat + 10)
  else none

def isJsonWs (c : Char) : Bool :=
  c = ' ' ∨ c = '\x09' ∨ c = '\x0a' ∨ c = '\x0d'

def skipWs : List Char → List Char
  | c :: cs => if isJsonWs c then skipWs cs else c :: cs
  | [] => []

/-- Body of a JSON string literal (after the opening quote), with the
standard escapes.  Lone surrogate escapes are rejected (surrogate pairs
are not modelled; no theorem exercises them). -/
def parseStrBody : Nat → List Char → List Char → Option (String × List Char)
  | 0, _, _ => none
  | fuel + 1, acc, c :: cs =>
    if c = '"' then some (String.mk acc.reverse, cs)
    else if c = '\\' then
      match cs with
      | [] => none
      | e :: cs' =>
        if e = '"' then parseStrBody fuel ('"' :: acc) cs'
        else if e = '\\' then parseStrBody fuel ('\\' :: acc) cs'
        else if e = '/' then parseStrBody fuel ('/' :: acc) cs'
        else if e = 'n' then parseStrBody fuel ('\x0a' :: acc) cs'
        else if e = 't' then parseStrBody fuel ('\x09' :: acc) cs'
        else if e = 'r' then parseStrBody fuel ('\x0d' :: acc) cs'
        else if e = 'b' then parseStrBody fuel ('\x08' :: acc) cs'
        else if e = 'f' then parseStrBody fuel ('\x0c' :: acc) cs'
        else if e = 'u' then
          match cs' with
          | a :: b :: c2 :: d :: rest =>
            match hexVal a, hexVal b, hexVal c2, hexVal d with
            | some ha, some hb, some hc, some hd =>
              let n := ((ha * 16 + hb) * 16 + hc) * 16 + hd
              if n < 0xd800 then parseStrBody fuel (Char.ofNat n :: acc) rest
              else if 0xe000 ≤ n then parseStrBody fuel (Char.ofNat n :: acc) rest
              else none
            | _, _, _, _ => none
          | _ => none
        else none
    else if c.toNat < 0x20 then none
    else parseStrBody fuel (c :: acc) cs
  | _, _, [] => none

def parseNatAux : List Char → Nat → Nat × List Char
  | c :: cs, acc =>
    if '0' ≤ c ∧ c ≤ '9' then parseNatAux cs (acc * 10 + (c.toNat - '0'.toNat))
    else (acc, c :: cs)
  | [], acc => (acc, [])

def parseNatTok : List Char → Option (Nat × List Char)
  | c :: cs =>
    if '0' ≤ c ∧ c ≤ '9' then some (parseNatAux cs (c.toNat - '0'.toNat))
    else none
  | [] => none

mutual

/-- Fueled JSON text parser (recursive descent; one fuel unit per
nested recursion step, so twice the input length always suffices). -/
def parseJsonF : Nat → List Char → Option (Json × List Char)
  | 0, _ => none
  | fuel + 1, cs =>
    match skipWs cs with
    | 'n' :: 'u' :: 'l' :: 'l' :: rest => some (.null, rest)
    | 't' :: 'r' :: 'u' :: 'e' :: rest => some (.bool true, rest)
    | 'f' :: 'a' :: 'l' :: 's' :: 'e' :: rest => some (.bool false, rest)
    | '"' :: rest =>
      match parseStrBody (rest.length + 1) [] rest with
      | some (s, rest') => some (.str s, rest')
      | none => none
    | '[' :: rest => parseArrTail fuel rest
    | '\x7b' :: rest => parseObjTail fuel rest
    | '-' :: rest =>
      match parseNatTok rest with
      | some (n, rest') => some (.num (-(n : Int)), rest')
      | none => none
    | c :: rest =>
      if '0' ≤ c ∧ c ≤ '9' then
        match parseNatTok (c :: rest) with
        | some (n, rest') => some (.num (n : Int), rest')
        | none => none
      else none
    | [] => none

def parseArrTail : Nat → List Char → Option (Json × List Char)
  | 0, _ => none
  | fuel + 1, cs =>
    match skipWs cs with
    | ']' :: rest => some (.arr [], rest)
    | cs' =>
      match parseJsonF fuel cs' with
      | some (v, rest) =>
        match parseArrElems fuel rest with
        | some (vs, rest') => some (.arr (v :: vs), rest')
        | none => none
      | none => none

def parseArrElems : Nat → List Char → Option (List Json × List Char)
  | 0, _ => none
  | fuel + 1, cs =>
    match skipWs cs with
    | ']' :: rest => some ([], rest)
    | ',' :: rest =>
      match parseJsonF fuel rest with
      | some (v, rest') =>
        match parseArrElems fuel rest' with
        | some (vs, rest'') => some (v :: vs, rest'')
        | none => none
      | none => none
    | _ => none

def parseObjTail : Nat → List Char → Option (Json × List Char)
  | 0, _ => none
  | fuel + 1, cs =>
    match skipWs cs with
    | '\x7d' :: rest => some (.obj [], rest)
    | cs' =>
      match parseObjField fuel cs' with
      | some (kv, rest) =>
        match parseObjFields fuel rest with
        | some (kvs, rest') => some (.obj (kv :: kvs), rest')
        | none => none
      | none => none

def parseObjField : Nat → List Char → Option ((String × Json) × List Char)
  | 0, _ => none
  | fuel + 1, cs =>
    match skipWs cs with
    | '"' :: rest =>
      match parseStrBody (rest.length + 1) [] rest with
      | some (k, rest') =>
        match skipWs rest' with
        | ':' :: rest'' =>
          match parseJsonF fuel rest'' with
          | some (v, rest3) => some ((k, v), rest3)
          | none => none
        | _ => none
      | none => none
    | _ => none

def parseObjFields : Nat → List Char → Option (List (String × Json) × List Char)
  | 0, _ => none
  | fuel + 1, cs =>
    match skipWs cs with
    | '\x7d' :: rest => some ([], rest)
    | ',' :: rest =>
      match parseObjField fuel rest with
      | some (kv, rest') =>
        match parseObjFields fuel rest' with
        | some (kvs, rest'') => some (kv :: kvs, rest'')
        | none => none
      | none => none
    | _ => none

end

/-- `serde_json::from_str` at the text layer: parse one JSON value and
require only trailing whitespace after it. -/
def parseJsonStr (s : String) : Option Json :=
  match parseJsonF (2 * s.length + 2) s.data with
  | some (j, rest) => if (skipWs rest).isEmpty then some j else none
  | none => none

/-! ## Wire data model (`chat.rs` lines 18–52) -/

/-- `enum MsgTypes` with `#[serde(rename_all = "lowercase")]`. -/
inductive MsgTypes where
  | users : MsgTypes
  | register : MsgTypes
  | message : MsgTypes
  | typing : MsgTypes
deriving DecidableEq

/-- `struct MessageData` (`Deserialize` only): the inner payload of an
inbound `Message` envelope. -/
structure MessageData where
  «from» : String
  message : String
  timestamp : Option String
deriving DecidableEq

/-- `struct WebSocketMessage` with `#[serde(rename_all = "camelCase")]`:
the outer wire envelope. -/
structure WebSocketMessage where
  message_type : MsgTypes
  data_array : Option (List String)
  data : Option String
deriving DecidableEq

/-- `struct TypingStatus` (no serde rename: wire keys are `username`
and `is_typing`). -/
structure TypingStatus where
  username : String
  is_typing : Bool
deriving DecidableEq

/-- `struct UserProfile`. -/
structure UserProfile where
  name : String
  avatar : String
deriving DecidableEq

/-- The session state owned by the `Chat` component (the modellable
fields; `chat_input` is a DOM handle passed explicitly to the handlers,
`wss`/`_producer` are the external transport and event bus). -/
structure Chat where
  users : List UserProfile
  messages : List MessageData
  typing_users : List String
  show_emoji_picker : Bool
  typing_timeout : Option Int
deriving DecidableEq

/-- Initial state built by `Chat::create` (lines 91–100). -/
def initialChat : Chat :=
  { users := [], messages := [], typing_users := [],
    show_emoji_picker := false, typing_timeout := none }

/-! ## serde codecs for the envelope and inner payloads -/

/-- Variant tags of `MsgTypes` under `rename_all = "lowercase"`. -/
def decodeMsgType : Json → Option MsgTypes
  | .str "users" => some .users
  | .str "register" => some .register
  | .str "message" => some .message
  | .str "typing" => some .typing
  | _ => none

def encodeMsgType : MsgTypes → Json
  | .users => .str "users"
  | .register => .str "register"
  | .message => .str "message"
  | .typing => .str "typing"

def decodeStrList : List Json → Option (List String)
  | [] => some []
  | .str s :: rest =>
    match decodeStrList rest with
    | some l => some (s :: l)
    | none => none
  | _ :: _ => none

/-- serde for `Option<Vec<String>>`: `null` is `None`, an array of
strings is `Some`, anything else is a type error. -/
def decodeOptStrList : Json → Option (Option (List String))
  | .null => some none
  | .arr xs =>
    match decodeStrList xs with
    | some l => some (some l)
    | none => none
  | _ => none

/-- serde for `Option<String>`. -/
def decodeOptStr : Json → Option (Option String)
  | .null => some none
  | .str s => some (some s)
  | _ => none

/-- Field loop of the derived `Deserialize` for `WebSocketMessage`:
unknown fields are ignored, duplicates rejected, `messageType`
required, the two `Option` fields default to `None` when absent. -/
def decodeWSFields :
    List (String × Json) → Option MsgTypes → Option (Option (List String)) →
    Option (Option String) → Option WebSocketMessage
  | [], mt, da, d =>
    match mt with
    | some t => some ⟨t, da.getD none, d.getD none⟩
    | none => none
  | (k, v) :: rest, mt, da, d =>
    if k = "messageType" then
      match mt with
      | some _ => none
      | none =>
        match decodeMsgType v with
        | some t => decodeWSFields rest (some t) da d
        | none => none
    else if k = "dataArray" then
      match da with
      | some _ => none
      | none =>
        match decodeOptStrList v with
        | some o => decodeWSFields rest mt (some o) d
        | none => none
    else if k = "data" then
      match d with
      | some _ => none
      | none =>
        match decodeOptStr v with
        | some o => decodeWSFields rest mt da (some o)
        | none => none
    else decodeWSFields rest mt da d

/-- `serde_json::from_str::<WebSocketMessage>` at the value layer. -/
def decodeWSJson : Json → Option WebSocketMessage
  | .obj fields => decodeWSFields fields none none none
  | _ => none

/-- `serde_json::to_string(&WebSocketMessage)` at the value layer:
fields in declaration order, `Option` as `null`. -/
def encodeWSJson (m : WebSocketMessage) : Json :=
  .obj [("messageType", encodeMsgType m.message_type),
        ("dataArray", match m.data_array with
          | none => .null
          | some xs => .arr (xs.map .str)),
        ("data", match m.data with
          | none => .null
          | some s => .str s)]

/-- Field loop of the derived `Deserialize` for `MessageData`
(`from` and `message` required, `timestamp` optional). -/
def decodeMDFields :
    List (String × Json) → Option String → Option String →
    Option (Option String) → Option MessageData
  | [], f, m, t =>
    match f, m with
    | some f', some m' => some ⟨f', m', t.getD none⟩
    | _, _ => none
  | (k, v) :: rest, f, m, t =>
    if k = "from" then
      match f, v with
      | none, .str s => decodeMDFields rest (some s) m t
      | _, _ => none
    else if k = "message" then
      match m, v with
      | none, .str s => decodeMDFields rest f (some s) t
      | _, _ => none
    else if k = "timestamp" then
      match t with
      | some _ => none
      | none =>
        match decodeOptStr v with
        | some o => decodeMDFields rest f m (some o)
        | none => none
    else decodeMDFields rest f m t

/-- `serde_json::from_str::<MessageData>` (line 125). -/
def parseMessageDataStr (s : String) : Option MessageData :=
  match parseJsonStr s with
  | some (.obj fields) => decodeMDFields fields none none none
  | _ => none

/-- Field loop of the derived `Deserialize` for `TypingStatus`
(both fields required, keys not renamed). -/
def decodeTSFields :
    List (String × Json) → Option String → Option Bool → Option TypingStatus
  | [], u, t =>
    match u, t with
    | some u', some t' => some ⟨u', t'⟩
    | _, _ => none
  | (k, v) :: rest, u, t =>
    if k = "username" then
      match u, v with
      | none, .str s => decodeTSFields rest (some s) t
      | _, _ => none
    else if k = "is_typing" then
      match t, v with
      | none, .bool b => decodeTSFields rest u (some b)
      | _, _ => none
    else decodeTSFields rest u t

/-- `serde_json::from_str::<TypingStatus>` (line 132). -/
def parseTypingStr (s : String) : Option TypingStatus :=
  match parseJsonStr s with
  | some (.obj fields) => decodeTSFields fields none none
  | _ => none

/-- `serde_json::to_string(&TypingStatus)` (line 399). -/
def renderTypingStatus (ts : TypingStatus) : String :=
  Json.render (.obj [("username", .str ts.username),
                     ("is_typing", .bool ts.is_typing)])

/-! ## Session controller (`Chat::update`, `Chat::send_typing_status`) -/

/-- Rust `char::is_whitespace` (the Unicode `White_Space` set). -/
def rustIsWs (c : Char) : Bool :=
  let n := c.toNat
  (0x09 ≤ n ∧ n ≤ 0x0d) ∨ n = 0x20 ∨ n = 0x85 ∨ n = 0xa0 ∨ n = 0x1680 ∨
    (0x2000 ≤ n ∧ n ≤ 0x200a) ∨ n = 0x2028 ∨ n = 0x2029 ∨ n = 0x202f ∨
    n = 0x205f ∨ n = 0x3000

/-- Rust `str::trim`. -/
def rustTrim (s : String) : String :=
  String.mk (((s.data.dropWhile rustIsWs).reverse.dropWhile rustIsWs).reverse)

/-- Rust `str::ends_with` (byte suffix, i.e. character-list suffix). -/
def strEndsWith (s suffix : String) : Bool :=
  suffix.data.isSuffixOf s.data

/-- Avatar derivation (the `format!` at lines 114–117 and 264–267). -/
def avatarUrl (u : String) : String :=
  "https://avatars.dicebear.com/api/adventurer-neutral/" ++ u ++ ".svg"

def mkUserProfile (u : String) : UserProfile :=
  { name := u, avatar := avatarUrl u }

/-- Lines 134–142: the `typing_users` mutation for a decoded
`TypingStatus` (push-if-absent / retain-not-equal). -/
def applyTyping (ts : TypingStatus) (l : List String) : List String :=
  if ts.is_typing then
    if l.contains ts.username then l else l ++ [ts.username]
  else
    l.filter (fun u => u != ts.username)

/-- `Msg::HandleMsg` (lines 105–151).  The frame is given as its parsed
JSON tree; `none` models a panic (`.unwrap()` on a failed decode), and
the `Bool` in the result is `update`'s re-render flag. -/
def handleMsgJson (j : Json) (st : Chat) : Option (Chat × Bool) :=
  match decodeWSJson j with
  | none => none
  | some msg =>
    match msg.message_type with
    | .users =>
      let users_from_message := msg.data_array.getD []
      some ({ st with users := users_from_message.map mkUserProfile }, true)
    | .message =>
      match msg.data with
      | none => none
      | some d =>
        match parseMessageDataStr d with
        | none => none
        | some message_data =>
          some ({ st with messages := st.messages ++ [message_data] }, true)
    | .typing =>
      match msg.data with
      | some data =>
        match parseTypingStr data with
        | none => none
        | some typing_status =>
          some ({ st with typing_users := applyTyping typing_status st.typing_users }, true)
      | none => some (st, false)
    | .register => some (st, false)

/-- A sequence of inbound frames, processed in arrival order; a panic
anywhere aborts the session. -/
def processFrames : List Json → Chat → Option Chat
  | [], st => some st
  | j :: js, st =>
    match handleMsgJson j st with
    | none => none
    | some (st', _) => processFrames js st'

/-- The typing-indicator text derived in `Chat::view` (lines 217–228). -/
def typingText (l : List String) : String :=
  if !l.isEmpty then
    if l.length = 1 then
      l.getD 0 "" ++ " is typing..."
    else if l.length = 2 then
      l.getD 0 "" ++ " and " ++ l.getD 1 "" ++ " are typing..."
    else
      "Several people are typing..."
  else
    ""

/-- The image-payload classification in `Chat::view` (line 287):
`m.message.ends_with(".gif")`. -/
def rendersAsImage (m : MessageData) : Bool :=
  strEndsWith m.message ".gif"

/-- `Chat::send_typing_status` (lines 380–411): the envelope handed to
`try_send` plus the debug log produced when the send fails (`ok` is the
`try_send` outcome). -/
def send_typing_status (username : String) (is_typing : Bool) (ok : Bool) :
    WebSocketMessage × List String :=
  (⟨.typing, none, some (renderTypingStatus ⟨username, is_typing⟩)⟩,
   if ok then [] else ["error sending typing status"])

/-- Observable outcome of `Msg::SubmitMessage`: the new session state,
the input element's new value (`none` when the element is absent), the
envelopes handed to `try_send` in order, the debug logs, and the
re-render flag. -/
structure SubmitOut where
  state : Chat
  input : Option String
  sends : List WebSocketMessage
  logs : List String
  rerender : Bool
deriving DecidableEq

/-- `Msg::SubmitMessage` (lines 152–180).  `username` is the ambient
identity used by `send_typing_status`; `input` is the current value of
the input element; `okMsg`/`okTyping` are the outcomes of the two
potential `try_send` calls. -/
def submitMessage (username : String) (input : Option String) (st : Chat)
    (okMsg okTyping : Bool) : SubmitOut :=
  match input with
  | some input_value =>
    if !(rustTrim input_value).data.isEmpty then
      let message : WebSocketMessage := ⟨.message, none, some input_value⟩
      let log1 : List String := if okMsg then [] else ["error sending to channel"]
      let sent := send_typing_status username false okTyping
      { state := { st with show_emoji_picker := false },
        input := some "",
        sends := [message, sent.1],
        logs := log1 ++ sent.2,
        rerender := true }
    else
      { state := { st with show_emoji_picker := false },
        input := some input_value,
        sends := [], logs := [], rerender := true }
  | none =>
    { state := { st with show_emoji_picker := false },
      input := none, sends := [], logs := [], rerender := true }

/-! ## Helper lemmas -/

theorem decodeStrList_map_str (xs : List String) :
    decodeStrList (xs.map Json.str) = some xs := by
  induction xs with
  | nil => rfl
  | cons x xs ih => simp [decodeStrList, ih]

/-- The serde codec for `WebSocketMessage` inverts serialization at the
value layer. -/
theorem decode_encode_aux (e : WebSocketMessage) :
    decodeWSJson (encodeWSJson e) = some e := by
  obtain ⟨t, da, d⟩ := e
  cases t <;> cases da <;> cases d <;>
    simp [encodeWSJson, encodeMsgType, decodeWSJson, decodeWSFields,
      decodeMsgType, decodeOptStrList, decodeOptStr, decodeStrList_map_str]

/-- A `Users` frame carrying `names`. -/
def usersFrame (names : List String) : Json :=
  encodeWSJson ⟨.users, some names, none⟩

/-- A `Typing` frame as produced by `send_typing_status`. -/
def typingFrame (u : String) (b : Bool) : Json :=
  encodeWSJson ⟨.typing, none, some (renderTypingStatus ⟨u, b⟩)⟩

theorem handle_usersFrame (names : List String) (st : Chat) :
    handleMsgJson (usersFrame names) st =
      some ({ st with users := names.map mkUserProfile }, true) := by
  simp [usersFrame, handleMsgJson, decode_encode_aux]

theorem applyTyping_nodup (ts : TypingStatus) (l : List String)
    (h : l.Nodup) : (applyTyping ts l).Nodup := by
  unfold applyTyping
  split
  · split
    · exact h
    · rename_i hc
      have hmem : ts.username ∉ l := by
        intro hm
        exact hc (List.elem_eq_true_of_mem hm)
      simp [List.nodup_append, h, hmem]
  · exact h.filter _

theorem applyTyping_false_not_mem (u : String) (l : List String)
    (h : u ∉ l) : applyTyping ⟨u, false⟩ l = l := by
  have hall : ∀ a ∈ l, (a != u) = true := by
    intro a ha
    exact bne_iff_ne.mpr (fun e => h (e ▸ ha))
  simp [applyTyping, List.filter_eq_self.mpr hall]

theorem applyTyping_true_mem (u : String) (l : List String)
    (h : u ∈ l) : applyTyping ⟨u, true⟩ l = l := by
  unfold applyTyping
  simp
  exact h

theorem handleMsg_typing_users (j : Json) (st st' : Chat) (r : Bool)
    (h : handleMsgJson j st = some (st', r)) :
    st'.typing_users = st.typing_users ∨
      ∃ ts, st'.typing_users = applyTyping ts st.typing_users := by
  unfold handleMsgJson at h
  cases hd : decodeWSJson j with
  | none => rw [hd] at h; cases h
  | some msg =>
    rw [hd] at h
    obtain ⟨mt, da, d⟩ := msg
    cases mt with
    | users =>
      simp only [Option.some.injEq, Prod.mk.injEq] at h
      left; rw [← h.1]
    | register =>
      simp only [Option.some.injEq, Prod.mk.injEq] at h
      left; rw [← h.1]
    | message =>
      cases d with
      | none => cases h
      | some dd =>
        cases hp : parseMessageDataStr dd with
        | none => simp only [hp] at h; exact Option.noConfusion h
        | some md =>
          simp only [hp, Option.some.injEq, Prod.mk.injEq] at h
          left; rw [← h.1]
    | typing =>
      cases d with
      | none =>
        simp only [Option.some.injEq, Prod.mk.injEq] at h
        left; rw [← h.1]
      | some dd =>
        cases hp : parseTypingStr dd with
        | none => simp only [hp] at h; exact Option.noConfusion h
        | some ts =>
          simp only [hp, Option.some.injEq, Prod.mk.injEq] at h
          right; exact ⟨ts, by rw [← h.1]⟩

/-! ## Claims -/

/-- Claim C1 counterexample: the frame `"oops"` (a bare JSON string, not
an envelope object) is structurally invalid, and processing it does NOT
leave the session running with unchanged state — the handler's decode
`.unwrap()` panics (modelled as `none`), so the claimed "no crash, state
unchanged" outcome is impossible. -/
theorem C1_cex :
    decodeWSJson (Json.str "oops") = none ∧
    ¬ ∃ r, handleMsgJson (Json.str "oops") initialChat = some (initialChat, r) := by
  refine ⟨rfl, ?_⟩
  rintro ⟨r, h⟩
  exact Option.noConfusion h

/-- Claim C1 (amended): processing an inbound frame whose envelope
decode fails panics — the handler aborts (`none`) before any state
mutation, so no session state is ever produced, changed or unchanged. -/
theorem C1_malformed_frame_panics (j : Json) (st : Chat)
    (h : decodeWSJson j = none) : handleMsgJson j st = none := by
  unfold handleMsgJson
  rw [h]

/-- Claim C1 witness: the amended theorem applied to a concrete
malformed frame. -/
theorem C1_malformed_frame_panics_witness :
    decodeWSJson (Json.str "oops") = none ∧
    handleMsgJson (Json.str "oops") initialChat = none :=
  ⟨rfl, C1_malformed_frame_panics (Json.str "oops") initialChat rfl⟩

/-- Claim C2 counterexample: submitting `"hello"` sends a `Message`
envelope whose `data` field is the raw text `"hello"` itself — it is
not a JSON-encoded `MessageData` payload, so no inner field
`data.message` exists (`"hello"` does not even parse as JSON). -/
theorem C2_cex :
    (submitMessage "alice" (some "hello") initialChat true true).sends.head? =
        some ⟨.message, none, some "hello"⟩ ∧
    parseMessageDataStr "hello" = none ∧
    ¬ ∃ md : MessageData,
        ((submitMessage "alice" (some "hello") initialChat true true).sends.head?.bind
          (fun m => m.data.bind parseMessageDataStr)) = some md ∧
        md.message = "hello" := by
  refine ⟨rfl, rfl, ?_⟩
  rintro ⟨md, h, _⟩
  have hnone : ((submitMessage "alice" (some "hello") initialChat true true).sends.head?.bind
      (fun m => m.data.bind parseMessageDataStr)) = none := rfl
  rw [hnone] at h
  exact Option.noConfusion h

/-- Claim C2 (amended): for every non-blank input text, submit sends
exactly one `Message` envelope whose `data` field equals the raw input
text itself (un-nested), then exactly one `Typing` envelope with
`is_typing = false`; the input is cleared and the emoji picker closed. -/
theorem C2_submit_nonblank (u s : String) (st : Chat) (o1 o2 : Bool)
    (h : (rustTrim s).data.isEmpty = false) :
    submitMessage u (some s) st o1 o2 =
      { state := { st with show_emoji_picker := false },
        input := some "",
        sends := [⟨.message, none, some s⟩,
                  ⟨.typing, none, some (renderTypingStatus ⟨u, false⟩)⟩],
        logs := (if o1 then [] else ["error sending to channel"]) ++
                (if o2 then [] else ["error sending typing status"]),
        rerender := true } := by
  simp [submitMessage, h, send_typing_status]

/-- Claim C2 witness: the amended theorem at input `"hello"`. -/
theorem C2_submit_nonblank_witness :
    (rustTrim "hello").data.isEmpty = false ∧
    submitMessage "alice" (some "hello") initialChat true true =
      { state := { initialChat with show_emoji_picker := false },
        input := some "",
        sends := [⟨.message, none, some "hello"⟩,
                  ⟨.typing, none, some (renderTypingStatus ⟨"alice", false⟩)⟩],
        logs := [], rerender := true } :=
  ⟨rfl, C2_submit_nonblank "alice" "hello" initialChat true true rfl⟩

/-- Claim C3: after any nonempty sequence of inbound `Users` envelopes,
the roster equals exactly the names of the most recent envelope in
order, each with the derived avatar; earlier contents are
wholesale-replaced and no other state field is touched. -/
theorem C3_users_wholesale (pre : List (List String))
    (lastNames : List String) (st : Chat) :
    processFrames ((pre ++ [lastNames]).map usersFrame) st =
      some { st with users := lastNames.map mkUserProfile } := by
  induction pre generalizing st with
  | nil => simp [processFrames, handle_usersFrame]
  | cons ns rest ih =>
    have h := ih { st with users := ns.map mkUserProfile }
    simp only [List.map_append, List.map_cons, List.map_nil] at h ⊢
    simp [processFrames, handle_usersFrame, h]

/-- Claim C4: across any inbound frame sequence `typingUsers` stays
duplicate-free; a `Typing(is_typing=false)` for an absent username is a
no-op on `typingUsers`, and so is a `true` for a present one. -/
theorem C4_typing_invariant :
    (∀ js st st', st.typing_users.Nodup → processFrames js st = some st' →
        st'.typing_users.Nodup) ∧
    (∀ j st st' r u da s, decodeWSJson j = some ⟨.typing, da, some s⟩ →
        parseTypingStr s = some ⟨u, false⟩ → u ∉ st.typing_users →
        handleMsgJson j st = some (st', r) →
        st'.typing_users = st.typing_users) ∧
    (∀ j st st' r u da s, decodeWSJson j = some ⟨.typing, da, some s⟩ →
        parseTypingStr s = some ⟨u, true⟩ → u ∈ st.typing_users →
        handleMsgJson j st = some (st', r) →
        st'.typing_users = st.typing_users) := by
  refine ⟨?_, ?_, ?_⟩
  · intro js
    induction js with
    | nil =>
      intro st st' h hp
      cases hp
      exact h
    | cons j rest ih =>
      intro st st' h hp
      unfold processFrames at hp
      cases hh : handleMsgJson j st with
      | none => rw [hh] at hp; exact Option.noConfusion hp
      | some p =>
        rw [hh] at hp
        obtain ⟨st1, r⟩ := p
        have hn : st1.typing_users.Nodup := by
          rcases handleMsg_typing_users j st st1 r hh with heq | ⟨ts, heq⟩
          · rw [heq]; exact h
          · rw [heq]; exact applyTyping_nodup ts _ h
        exact ih st1 st' hn hp
  · intro j st st' r u da s hdec hts hmem hh
    unfold handleMsgJson at hh
    rw [hdec] at hh
    simp only [hts, Option.some.injEq, Prod.mk.injEq] at hh
    rw [← hh.1]
    exact congrArg Chat.typing_users
      (congrArg (fun l => { st with typing_users := l })
        (applyTyping_false_not_mem u st.typing_users hmem)) |>.trans rfl
  · intro j st st' r u da s hdec hts hmem hh
    unfold handleMsgJson at hh
    rw [hdec] at hh
    simp only [hts, Option.some.injEq, Prod.mk.injEq] at hh
    rw [← hh.1]
    exact congrArg Chat.typing_users
      (congrArg (fun l => { st with typing_users := l })
        (applyTyping_true_mem u st.typing_users hmem)) |>.trans rfl

/-- Claim C4 witness: the invariant applied to a concrete double
`Typing(true)` sequence, and the `false`-for-absent no-op applied to a
concrete frame on the empty typing set. -/
theorem C4_typing_invariant_witness :
    (initialChat.typing_users.Nodup ∧
     processFrames [typingFrame "a" true, typingFrame "a" true] initialChat =
        some { initialChat with typing_users := ["a"] } ∧
     ({ initialChat with typing_users := ["a"] } : Chat).typing_users.Nodup) ∧
    (decodeWSJson (typingFrame "b" false) =
        some ⟨.typing, none, some (renderTypingStatus ⟨"b", false⟩)⟩ ∧
     parseTypingStr (renderTypingStatus ⟨"b", false⟩) = some ⟨"b", false⟩ ∧
     "b" ∉ initialChat.typing_users ∧
     handleMsgJson (typingFrame "b" false) initialChat = some (initialChat, true) ∧
     initialChat.typing_users = initialChat.typing_users) :=
  ⟨⟨List.nodup_nil, rfl,
    C4_typing_invariant.1 [typingFrame "a" true, typingFrame "a" true]
      initialChat { initialChat with typing_users := ["a"] } List.nodup_nil rfl⟩,
   rfl, rfl, List.not_mem_nil "b", rfl,
   C4_typing_invariant.2.1 (typingFrame "b" false) initialChat initialChat true
     "b" none (renderTypingStatus ⟨"b", false⟩) rfl rfl (List.not_mem_nil "b") rfl⟩

/-- Claim C5: the typing-indicator text is a function of `typingUsers`
alone: `[]` gives `""`, one user `a` gives `"a is typing..."`, two users
give `"a and b are typing..."`, three or more give the generic
`"Several people are typing..."`. -/
theorem C5_typing_text :
    typingText [] = "" ∧
    (∀ a, typingText [a] = a ++ " is typing...") ∧
    (∀ a b, typingText [a, b] = a ++ " and " ++ b ++ " are typing...") ∧
    (∀ l : List String, 3 ≤ l.length →
        typingText l = "Several people are typing...") := by
  refine ⟨rfl, fun a => by simp [typingText], fun a b => by simp [typingText], ?_⟩
  intro l h
  match l, h with
  | a :: b :: c :: rest, _ => simp [typingText]

/-- Claim C5 witness: the three-or-more case at a concrete list. -/
theorem C5_typing_text_witness :
    3 ≤ (["a", "b", "c"] : List String).length ∧
    typingText ["a", "b", "c"] = "Several people are typing..." :=
  ⟨by decide, C5_typing_text.2.2.2 ["a", "b", "c"] (by decide)⟩

/-- Claim C6: submitting blank or whitespace-only input sends no
envelope and leaves the input as it was, but still closes the emoji
picker (and still re-renders). -/
theorem C6_blank_submit (u s : String) (st : Chat) (o1 o2 : Bool)
    (h : (rustTrim s).data.isEmpty = true) :
    submitMessage u (some s) st o1 o2 =
      { state := { st with show_emoji_picker := false },
        input := some s, sends := [], logs := [], rerender := true } := by
  simp [submitMessage, h]

/-- Claim C6 witness: the theorem at the whitespace-only input `"   "`. -/
theorem C6_blank_submit_witness :
    (rustTrim "   ").data.isEmpty = true ∧
    submitMessage "alice" (some "   ") initialChat true true =
      { state := { initialChat with show_emoji_picker := false },
        input := some "   ", sends := [], logs := [], rerender := true } :=
  ⟨rfl, C6_blank_submit "alice" "   " initialChat true true rfl⟩

/-- Claim C7 counterexample: a syntactically valid envelope text listing
the same three fields in a different order decodes successfully, but
re-encoding produces the canonical field order, not the original text —
`encode(decode(x)) == x` fails. -/
theorem C7_cex :
    decodeWSJson (Json.obj [("data", Json.null), ("dataArray", Json.null),
        ("messageType", Json.str "users")]) = some ⟨.users, none, none⟩ ∧
    encodeWSJson ⟨.users, none, none⟩ ≠
      Json.obj [("data", Json.null), ("dataArray", Json.null),
        ("messageType", Json.str "users")] := by
  refine ⟨rfl, ?_⟩
  intro h
  have h2 := congrArg Json.firstKey h
  simp [encodeWSJson, encodeMsgType, Json.firstKey] at h2

/-- Claim C7 (amended): the codec round-trips value-to-text-to-value —
`decode(encode(e)) == e` for every constructible envelope.  The reverse
direction fails because decoding forgets field order and null/absent
distinctions (see the counterexample). -/
theorem C7_decode_encode (e : WebSocketMessage) :
    decodeWSJson (encodeWSJson e) = some e :=
  decode_encode_aux e

/-- Claim C8: a stored message is classified image-payload exactly when
its body ends in `".gif"`; the classification is a function of the
stored body alone, and the body is stored verbatim from the decoded
inbound payload. -/
theorem C8_gif_classification :
    (∀ (st : Chat) (da : Option (List String)) (s : String) (md : MessageData),
        parseMessageDataStr s = some md →
        handleMsgJson (encodeWSJson ⟨.message, da, some s⟩) st =
          some ({ st with messages := st.messages ++ [md] }, true)) ∧
    (∀ md : MessageData, rendersAsImage md = strEndsWith md.message ".gif") ∧
    rendersAsImage ⟨"u", "http://x/y.gif", none⟩ = true ∧
    rendersAsImage ⟨"u", "http://x/y.png", none⟩ = false := by
  refine ⟨?_, fun _ => rfl, rfl, rfl⟩
  intro st da s md h
  simp [handleMsgJson, decode_encode_aux, h]

/-- Claim C8 witness: a concrete `.gif`-bodied inbound message is
appended verbatim and classified image-payload. -/
theorem C8_gif_classification_witness :
    parseMessageDataStr "\x7b\"from\":\"u\",\"message\":\"http://x/y.gif\"\x7d" =
        some ⟨"u", "http://x/y.gif", none⟩ ∧
    handleMsgJson (encodeWSJson ⟨.message, none,
        some "\x7b\"from\":\"u\",\"message\":\"http://x/y.gif\"\x7d"⟩) initialChat =
      some ({ initialChat with
                messages := initialChat.messages ++ [⟨"u", "http://x/y.gif", none⟩] },
            true) :=
  ⟨rfl, C8_gif_classification.1 initialChat none
    "\x7b\"from\":\"u\",\"message\":\"http://x/y.gif\"\x7d"
    ⟨"u", "http://x/y.gif", none⟩ rfl⟩

/-- Claim C9: the observable submit outcome (state, input, envelopes
attempted, re-render) does not depend on the `try_send` outcomes; in
particular with both sends failing, a non-blank submit still clears the
input, closes the picker, and attempts both envelopes. -/
theorem C9_send_failure_no_rollback :
    (∀ u iv st o1 o2 o1' o2',
        (submitMessage u iv st o1 o2).state = (submitMessage u iv st o1' o2').state ∧
        (submitMessage u iv st o1 o2).input = (submitMessage u iv st o1' o2').input ∧
        (submitMessage u iv st o1 o2).sends = (submitMessage u iv st o1' o2').sends ∧
        (submitMessage u iv st o1 o2).rerender = (submitMessage u iv st o1' o2').rerender) ∧
    (∀ u s st, (rustTrim s).data.isEmpty = false →
        (submitMessage u (some s) st false false).input = some "" ∧
        (submitMessage u (some s) st false false).state.show_emoji_picker = false ∧
        (submitMessage u (some s) st false false).sends =
          [⟨.message, none, some s⟩,
           ⟨.typing, none, some (renderTypingStatus ⟨u, false⟩)⟩]) := by
  constructor
  · intro u iv st o1 o2 o1' o2'
    cases iv with
    | none => exact ⟨rfl, rfl, rfl, rfl⟩
    | some s =>
      cases h : (rustTrim s).data.isEmpty <;>
        simp [submitMessage, h, send_typing_status]
  · intro u s st h
    simp [submitMessage, h, send_typing_status]

/-- Claim C9 witness: both parts at concrete inputs — the failing-send
submit of `"hi"` has the same observable outcome as the succeeding one. -/
theorem C9_send_failure_no_rollback_witness :
    ((submitMessage "alice" (some "hi") initialChat false false).state =
        (submitMessage "alice" (some "hi") initialChat true true).state ∧
     (submitMessage "alice" (some "hi") initialChat false false).input =
        (submitMessage "alice" (some "hi") initialChat true true).input ∧
     (submitMessage "alice" (some "hi") initialChat false false).sends =
        (submitMessage "alice" (some "hi") initialChat true true).sends ∧
     (submitMessage "alice" (some "hi") initialChat false false).rerender =
        (submitMessage "alice" (some "hi") initialChat true true).rerender) ∧
    ((rustTrim "hi").data.isEmpty = false ∧
     (submitMessage "alice" (some "hi") initialChat false false).input = some "" ∧
     (submitMessage "alice" (some "hi") initialChat false false).state.show_emoji_picker = false ∧
     (submitMessage "alice" (some "hi") initialChat false false).sends =
       [⟨.message, none, some "hi"⟩,
        ⟨.typing, none, some (renderTypingStatus ⟨"alice", false⟩)⟩]) :=
  ⟨C9_send_failure_no_rollback.1 "alice" (some "hi") initialChat false false true true,
   rfl, C9_send_failure_no_rollback.2 "alice" "hi" initialChat rfl⟩

/-- Claim C10: a `Users` envelope whose `dataArray` is `null` (or
absent) is not a decode error: it empties the roster wholesale and
still triggers a re-render. -/
theorem C10_users_null_dataarray (st : Chat) :
    handleMsgJson (Json.obj [("messageType", Json.str "users"),
        ("dataArray", Json.null), ("data", Json.null)]) st =
      some ({ st with users := [] }, true) ∧
    handleMsgJson (Json.obj [("messageType", Json.str "users")]) st =
      some ({ st with users := [] }, true) :=
  ⟨rfl, rfl⟩
